import Mathlib

/-!
Shallow embedding of `autobuildtool.py`, a single-file build dispatcher.
Python strings are modelled as `List Char`; the ambient world (argv, the
filesystem, environment variables, `shutil.which`, `subprocess.run`) is a
record `Env` of pure functions; `main` is a pure function from `Env` to an
`Outcome` holding the exit code passed to `sys.exit`, the trace of toolchain
lookups and subprocess invocations, and the printed lines.
-/

namespace AutoBuildTool

/-- A Python string, modelled as its list of characters. -/
abbrev PyStr := List Char

/-- `pathlib`'s `/` join: parent, separator, child. -/
def joinPath (a b : PyStr) : PyStr := a ++ '/' :: b

/-- A character that is not a path separator. -/
def notSep (c : Char) : Bool := !(c == '/' || c == '\\')

/-- The final path component (`PurePath.name`): the characters after the
last separator. -/
def basename (s : PyStr) : PyStr := (s.reverse.takeWhile notSep).reverse

/-- Index of the last `'.'` in a list of characters, if any
(`str.rfind` restricted to a found/not-found answer). -/
def rfindDot : PyStr → Option Nat
  | [] => none
  | c :: cs =>
    match rfindDot cs with
    | some i => some (i + 1)
    | none => if c = '.' then some 0 else none

/-- `pathlib` suffix of a final component `n`: `n[i:]` when the last dot
sits at index `i` with `0 < i < n.length - 1`, else empty. -/
def suffixOfName (n : PyStr) : PyStr :=
  match rfindDot n with
  | some i => if 0 < i ∧ i + 1 < n.length then n.drop i else []
  | none => []

/-- `pathlib` stem of a final component: the part before the suffix. -/
def stemOfName (n : PyStr) : PyStr :=
  match rfindDot n with
  | some i => if 0 < i ∧ i + 1 < n.length then n.take i else n
  | none => n

/-- `Path(s).suffix`. -/
def pySuffix (s : PyStr) : PyStr := suffixOfName (basename s)

/-- `Path(s).stem`. -/
def pyStem (s : PyStr) : PyStr := stemOfName (basename s)

/-- Python `str.lower`, per character. -/
def pyLower (s : PyStr) : PyStr := s.map Char.toLower

/-- Python `s.endswith(pat)`. -/
def strEndsWith (s pat : PyStr) : Bool := pat.isSuffixOf s

/-- `normalize_out_name` (autobuildtool.py lines 98-103): falsy input gives
`"a.exe"`; a name whose lowercasing does not end in `".exe"` gets the
suffix appended; otherwise the name is returned unchanged. -/
def normalize_out_name : Option PyStr → PyStr
  | none => "a.exe".data
  | some s =>
    if s.isEmpty then "a.exe".data
    else if strEndsWith (pyLower s) ".exe".data then s
    else s ++ ".exe".data

/-- The ambient world the script reads: `sys.argv` (program name included),
`Path.exists`, `Path.cwd()`, the `AUTOBUILD_ZIG` variable, `sys._MEIPASS`
when bundled, `shutil.which` for the two tool names, and the return code
`subprocess.run` yields for a command line. -/
structure Env where
  argv : List PyStr
  pathExists : PyStr → Bool
  cwd : PyStr
  envZig : Option PyStr
  meipass : Option PyStr
  whichZig : Option PyStr
  whichPyinstaller : Option PyStr
  run : List PyStr → Int

/-- `find_zig`, final tier (lines 46-49): `shutil.which("zig")`. -/
def find_zig_tier4 (env : Env) : Option PyStr := env.whichZig

/-- `find_zig`, relative-candidate tier (lines 38-44): `zig/zig.exe` then
`tool/zig/zig.exe`; on failure fall through to the PATH tier. -/
def find_zig_tier3 (env : Env) : Option PyStr :=
  if env.pathExists "zig/zig.exe".data then some "zig/zig.exe".data
  else if env.pathExists "tool/zig/zig.exe".data then some "tool/zig/zig.exe".data
  else find_zig_tier4 env

/-- `find_zig`, bundled tier (lines 32-36): `sys._MEIPASS / "zig" / "zig.exe"`
when running from a PyInstaller bundle; on failure fall through. -/
def find_zig_tier2 (env : Env) : Option PyStr :=
  match env.meipass with
  | some m =>
    if env.pathExists (joinPath (joinPath m "zig".data) "zig.exe".data) then
      some (joinPath (joinPath m "zig".data) "zig.exe".data)
    else find_zig_tier3 env
  | none => find_zig_tier3 env

/-- `find_zig` (lines 24-51): the `AUTOBUILD_ZIG` override is used first,
only when the variable is set to a truthy (non-empty) string naming an
existing path; otherwise control falls through the remaining tiers. -/
def find_zig (env : Env) : Option PyStr :=
  match env.envZig with
  | some e =>
    if e.isEmpty then find_zig_tier2 env
    else if env.pathExists e then some e
    else find_zig_tier2 env
  | none => find_zig_tier2 env

/-- `find_pyinstaller` (lines 74-78): solely `shutil.which("pyinstaller")`. -/
def find_pyinstaller (env : Env) : Option PyStr := env.whichPyinstaller

/-- The command line `build_with_zig` assembles (lines 56-65). -/
def build_with_zig_cmd (zig src out : PyStr) : List PyStr :=
  [zig, "cc".data, src, "-O2".data, "-std=c11".data, "-target".data,
   "x86_64-windows-gnu".data, "-o".data, out]

/-- The command line `build_python` assembles (lines 82-89). -/
def build_python_cmd (py src out : PyStr) : List PyStr :=
  [py, "--onefile".data, "--clean".data, "--name".data, pyStem out, src]

/-- Observable calls out of the process: the two toolchain lookups and a
`subprocess.run` of a concrete command line. -/
inductive Event where
  | lookupZig
  | lookupPyinstaller
  | runProc (cmd : List PyStr)
deriving DecidableEq

/-- What a run of the script amounts to: the code handed to `sys.exit`, the
ordered trace of lookups and subprocess invocations, and the printed lines. -/
structure Outcome where
  exitCode : Int
  events : List Event
  messages : List PyStr
deriving DecidableEq

/-- The dispatch on `src.suffix` (lines 152-175), given the already
normalized output name: the C branch locates zig (dying with 3 when absent)
and runs the compiler, the Python branch locates pyinstaller (dying with 4
when absent) and runs the packager; either branch dies with the subprocess's
own return code on failure; any other suffix dies with 5. -/
def dispatchBuild (env : Env) (src : PyStr) (out_name : PyStr) : Outcome :=
  if pySuffix src = ".c".data then
    match find_zig env with
    | none => ⟨3, [Event.lookupZig], ["ERROR: zig not found".data]⟩
    | some zig =>
      if env.run (build_with_zig_cmd zig src out_name) ≠ 0 then
        ⟨env.run (build_with_zig_cmd zig src out_name),
         [Event.lookupZig, Event.runProc (build_with_zig_cmd zig src out_name)],
         ["Using zig: ".data ++ zig,
          "Building C: ".data ++ src ++ " -> ".data ++ out_name,
          "Running: ".data ++ List.intercalate " ".data (build_with_zig_cmd zig src out_name),
          "ERROR: C build failed".data]⟩
      else
        ⟨0,
         [Event.lookupZig, Event.runProc (build_with_zig_cmd zig src out_name)],
         ["Using zig: ".data ++ zig,
          "Building C: ".data ++ src ++ " -> ".data ++ out_name,
          "Running: ".data ++ List.intercalate " ".data (build_with_zig_cmd zig src out_name),
          "Build succeeded. Created: ".data ++ out_name]⟩
  else if pySuffix src = ".py".data then
    match find_pyinstaller env with
    | none => ⟨4, [Event.lookupPyinstaller],
               ["ERROR: pyinstaller not found (pip install pyinstaller)".data]⟩
    | some py =>
      if env.run (build_python_cmd py src out_name) ≠ 0 then
        ⟨env.run (build_python_cmd py src out_name),
         [Event.lookupPyinstaller, Event.runProc (build_python_cmd py src out_name)],
         ["Using pyinstaller: ".data ++ py,
          "Building Python: ".data ++ src ++ " -> ".data ++ out_name,
          "Running: ".data ++ List.intercalate " ".data (build_python_cmd py src out_name),
          "ERROR: Python build failed".data]⟩
      else
        ⟨0,
         [Event.lookupPyinstaller, Event.runProc (build_python_cmd py src out_name)],
         ["Using pyinstaller: ".data ++ py,
          "Building Python: ".data ++ src ++ " -> ".data ++ out_name,
          "Running: ".data ++ List.intercalate " ".data (build_python_cmd py src out_name),
          "Build succeeded. Created: ".data ++ out_name]⟩
  else
    ⟨5, [], ["ERROR: unsupported source type: ".data ++ pySuffix src]⟩

/-- The banner printed first by `main` (line 116). -/
def startMsg : PyStr := "AutoBuildTool (Windows) - start".data

/-- Prefix the start banner onto a dispatch outcome. -/
def withStart (r : Outcome) : Outcome := ⟨r.exitCode, r.events, startMsg :: r.messages⟩

/-- `main` (lines 115-178). With at least one argument, `sys.argv[1]` is the
source (dying with 2 when it does not exist) and `sys.argv[2]`, when given,
the output name. With none, the working directory is probed for `main.c`
and `main.py`: both present dies with 10, neither with 1, else the one
present is the source. The output name is normalized and the build
dispatched on the source's suffix. -/
def main (env : Env) : Outcome :=
  match env.argv with
  | _ :: srcArg :: rest =>
    if env.pathExists srcArg then
      withStart (dispatchBuild env srcArg (normalize_out_name rest.head?))
    else
      ⟨2, [], [startMsg, "ERROR: source not found: ".data ++ srcArg]⟩
  | _ =>
    if env.pathExists (joinPath env.cwd "main.c".data)
        && env.pathExists (joinPath env.cwd "main.py".data) then
      ⟨10, [], [startMsg, "ERROR: both main.c and main.py exist (ambiguous)".data]⟩
    else if !env.pathExists (joinPath env.cwd "main.c".data)
        && !env.pathExists (joinPath env.cwd "main.py".data) then
      ⟨1, [], [startMsg, "ERROR: main.c or main.py not found".data]⟩
    else
      withStart (dispatchBuild env
        (if env.pathExists (joinPath env.cwd "main.c".data) then
          joinPath env.cwd "main.c".data
         else joinPath env.cwd "main.py".data)
        (normalize_out_name none))

/-- The spec's first resolution tier: the environment-variable override,
used only when set, truthy and naming an existing path. -/
def tierEnvOverride (env : Env) : Option PyStr :=
  match env.envZig with
  | some e => if !e.isEmpty && env.pathExists e then some e else none
  | none => none

/-- The spec's second tier: the bundled-resource directory's `zig/zig.exe`
subpath, only when running from a self-contained package. -/
def tierBundled (env : Env) : Option PyStr :=
  match env.meipass with
  | some m =>
    if env.pathExists (joinPath (joinPath m "zig".data) "zig.exe".data) then
      some (joinPath (joinPath m "zig".data) "zig.exe".data)
    else none
  | none => none

/-- The spec's third tier: the relative candidates `zig/zig.exe` then
`tool/zig/zig.exe`, in that priority order. -/
def tierRelative (env : Env) : Option PyStr :=
  if env.pathExists "zig/zig.exe".data then some "zig/zig.exe".data
  else if env.pathExists "tool/zig/zig.exe".data then some "tool/zig/zig.exe".data
  else none

/-- The spec's fourth tier: the system search-path lookup by name. -/
def tierSystemPath (env : Env) : Option PyStr := env.whichZig

/-- Modelled from the spec: the C-toolchain locator as the spec words it,
the first hit among the four tiers in order, `none` when all fail. -/
def locate_c_toolchain_spec (env : Env) : Option PyStr :=
  match tierEnvOverride env with
  | some p => some p
  | none =>
    match tierBundled env with
    | some p => some p
    | none =>
      match tierRelative env with
      | some p => some p
      | none => tierSystemPath env

/-- `List.takeWhile notSep` consumes exactly the separator-free prefix when
a separator follows it. -/
theorem takeWhile_notSep_append (l r : PyStr) (h : ∀ c ∈ l, notSep c = true) :
    (l ++ '/' :: r).takeWhile notSep = l := by
  induction l with
  | nil => simp [List.takeWhile_cons, notSep]
  | cons a as ih =>
    have ha : notSep a = true := h a (List.mem_cons_self a as)
    simp only [List.cons_append, List.takeWhile_cons, ha, if_true]
    rw [ih (fun c hc => h c (List.mem_cons_of_mem a hc))]

/-- Joining a separator-free final component makes it the basename. -/
theorem basename_joinPath (a b : PyStr) (h : ∀ c ∈ b, notSep c = true) :
    basename (joinPath a b) = b := by
  unfold basename joinPath
  rw [List.reverse_append, List.reverse_cons, List.append_assoc,
    List.singleton_append,
    takeWhile_notSep_append b.reverse a.reverse
      (fun c hc => h c (List.mem_reverse.mp hc)),
    List.reverse_reverse]

/-- The suffix of a joined path with a separator-free final component. -/
theorem pySuffix_joinPath (a b : PyStr) (h : ∀ c ∈ b, notSep c = true) :
    pySuffix (joinPath a b) = suffixOfName b := by
  unfold pySuffix
  rw [basename_joinPath a b h]

/-- C2: the name normalizer maps `None` to `a.exe`, appends the suffix to
`foo`, and leaves `foo.exe` and `FOO.EXE` unchanged (case-insensitive
suffix detection, no double-suffixing). -/
theorem normalize_out_name_examples :
    normalize_out_name none = "a.exe".data ∧
    normalize_out_name (some "foo".data) = "foo.exe".data ∧
    normalize_out_name (some "foo.exe".data) = "foo.exe".data ∧
    normalize_out_name (some "FOO.EXE".data) = "FOO.EXE".data := by
  decide

/-- C6: with an explicit source argument naming a nonexistent path, `main`
exits with code 2 and its trace is empty: no toolchain lookup and no
subprocess invocation happens. -/
theorem explicit_source_missing_exit2 (env : Env) (p src : PyStr)
    (rest : List PyStr)
    (hargv : env.argv = p :: src :: rest)
    (hne : env.pathExists src = false) :
    (main env).exitCode = 2 ∧ (main env).events = [] := by
  unfold main
  rw [hargv]
  simp [hne]

/-- Witness for C6 at a concrete environment. -/
def envNoSrc : Env :=
  ⟨["t".data, "missing.c".data], fun _ => false, "w".data,
   none, none, none, none, fun _ => 0⟩

theorem explicit_source_missing_exit2_witness :
    (main envNoSrc).exitCode = 2 ∧ (main envNoSrc).events = [] :=
  explicit_source_missing_exit2 envNoSrc "t".data "missing.c".data [] rfl rfl

/-- C7: an existing explicit source whose suffix is neither `.c` nor `.py`
makes `main` exit with code 5 with an empty trace: no locator call and no
subprocess invocation. -/
theorem unsupported_extension_exit5 (env : Env) (p src : PyStr)
    (rest : List PyStr)
    (hargv : env.argv = p :: src :: rest)
    (hex : env.pathExists src = true)
    (h1 : pySuffix src ≠ ".c".data)
    (h2 : pySuffix src ≠ ".py".data) :
    (main env).exitCode = 5 ∧ (main env).events = [] := by
  unfold main
  rw [hargv]
  simp [hex, dispatchBuild, h1, h2, withStart]

/-- Witness for C7 at a concrete `.txt` source. -/
def envTxt : Env :=
  ⟨["t".data, "x.txt".data], fun s => s == "x.txt".data, "w".data,
   none, none, none, none, fun _ => 0⟩

theorem unsupported_extension_exit5_witness :
    (main envTxt).exitCode = 5 ∧ (main envTxt).events = [] :=
  unsupported_extension_exit5 envTxt "t".data "x.txt".data [] rfl (by decide)
    (by decide) (by decide)

/-- C10: dispatch on the source suffix is case-sensitive: an existing
explicit source with suffix `.C` or `.PY` exits with code 5 (unsupported
source type) with an empty trace, not selecting either build variant. -/
theorem suffix_dispatch_case_sensitive (env : Env) (p src : PyStr)
    (rest : List PyStr)
    (hargv : env.argv = p :: src :: rest)
    (hex : env.pathExists src = true)
    (hsuf : pySuffix src = ".C".data ∨ pySuffix src = ".PY".data) :
    (main env).exitCode = 5 ∧ (main env).events = [] := by
  have h1 : pySuffix src ≠ ".c".data := by
    rcases hsuf with h | h <;> rw [h] <;> decide
  have h2 : pySuffix src ≠ ".py".data := by
    rcases hsuf with h | h <;> rw [h] <;> decide
  unfold main
  rw [hargv]
  simp [hex, dispatchBuild, h1, h2, withStart]

/-- Witness for C10 at a concrete uppercase `.C` source. -/
def envUpperC : Env :=
  ⟨["t".data, "MAIN.C".data], fun s => s == "MAIN.C".data, "w".data,
   none, none, some "zig".data, none, fun _ => 0⟩

theorem suffix_dispatch_case_sensitive_witness :
    (main envUpperC).exitCode = 5 ∧ (main envUpperC).events = [] :=
  suffix_dispatch_case_sensitive envUpperC "t".data "MAIN.C".data [] rfl
    (by decide) (Or.inl (by decide))

/-- C1: with no arguments, `main` probes the working directory; when both
`main.c` and `main.py` exist it exits with code 10, when neither exists it
exits with code 1, and in either case the trace is empty: no subprocess is
invoked and no build dispatched. -/
theorem main_no_args_ambiguous_and_missing (env : Env)
    (hargv : env.argv.length ≤ 1) :
    (env.pathExists (joinPath env.cwd "main.c".data) = true →
     env.pathExists (joinPath env.cwd "main.py".data) = true →
     (main env).exitCode = 10 ∧ (main env).events = []) ∧
    (env.pathExists (joinPath env.cwd "main.c".data) = false →
     env.pathExists (joinPath env.cwd "main.py".data) = false →
     (main env).exitCode = 1 ∧ (main env).events = []) := by
  rcases henv : env.argv with _ | ⟨a, _ | ⟨b, t⟩⟩
  · constructor <;> intro h1 h2 <;> unfold main <;> rw [henv] <;> simp [h1, h2]
  · constructor <;> intro h1 h2 <;> unfold main <;> rw [henv] <;> simp [h1, h2]
  · rw [henv] at hargv
    simp at hargv

/-- Witness for C1 at a concrete environment where both sources exist. -/
def envBoth : Env :=
  ⟨["t".data], fun _ => true, "w".data, none, none, none, none, fun _ => 0⟩

theorem main_no_args_ambiguous_witness :
    (main envBoth).exitCode = 10 ∧ (main envBoth).events = [] :=
  (main_no_args_ambiguous_and_missing envBoth (by decide)).1 rfl rfl

/-- `main` resolves source `src` with optional output-name argument
`outArg` in exactly two ways: the explicit route, where `sys.argv[1]` names
an existing path and `sys.argv[2]`, when present, the output name; or the
no-argument route, where exactly one of `main.c`/`main.py` exists in the
working directory and no output name is given. -/
def ResolvesTo (env : Env) (src : PyStr) (outArg : Option PyStr) : Prop :=
  (∃ p rest, env.argv = p :: src :: rest ∧ env.pathExists src = true ∧
    outArg = rest.head?) ∨
  (env.argv.length ≤ 1 ∧ outArg = none ∧
    ((env.pathExists (joinPath env.cwd "main.c".data) = true ∧
      env.pathExists (joinPath env.cwd "main.py".data) = false ∧
      src = joinPath env.cwd "main.c".data) ∨
     (env.pathExists (joinPath env.cwd "main.c".data) = false ∧
      env.pathExists (joinPath env.cwd "main.py".data) = true ∧
      src = joinPath env.cwd "main.py".data)))

/-- Whenever a source resolves, by either route, `main` is the banner
followed by the dispatch of that source under the normalized output name. -/
theorem main_eq_dispatch (env : Env) (src : PyStr) (outArg : Option PyStr)
    (h : ResolvesTo env src outArg) :
    main env = withStart (dispatchBuild env src (normalize_out_name outArg)) := by
  rcases h with ⟨p, rest, hargv, hex, hout⟩ | ⟨hlen, hout, hcase⟩
  · unfold main
    rw [hargv]
    simp [hex, hout]
  · rcases henv : env.argv with _ | ⟨a, _ | ⟨b, t⟩⟩
    · rcases hcase with ⟨hc, hpy, hsrc⟩ | ⟨hc, hpy, hsrc⟩ <;>
        unfold main <;> rw [henv] <;> simp [hc, hpy, hsrc, hout]
    · rcases hcase with ⟨hc, hpy, hsrc⟩ | ⟨hc, hpy, hsrc⟩ <;>
        unfold main <;> rw [henv] <;> simp [hc, hpy, hsrc, hout]
    · rw [henv] at hlen
      simp at hlen

/-- C5: on any resolved `.c` source, explicit or auto-detected, with no
resolvable zig, `main` exits with code 3 and the trace holds only the zig
lookup (no subprocess); on any resolved `.py` source with no resolvable
pyinstaller, it exits with code 4 and the trace holds only the pyinstaller
lookup. -/
theorem toolchain_not_found_exit_codes (env : Env) (src : PyStr)
    (outArg : Option PyStr)
    (hres : ResolvesTo env src outArg) :
    (pySuffix src = ".c".data → find_zig env = none →
      (main env).exitCode = 3 ∧ (main env).events = [Event.lookupZig]) ∧
    (pySuffix src = ".py".data → find_pyinstaller env = none →
      (main env).exitCode = 4 ∧
      (main env).events = [Event.lookupPyinstaller]) := by
  rw [main_eq_dispatch env src outArg hres]
  constructor
  · intro hsuf hz
    simp [dispatchBuild, hsuf, hz, withStart]
  · intro hsuf hpi
    have hne : pySuffix src ≠ ".c".data := by rw [hsuf]; decide
    simp [dispatchBuild, hne, hsuf, hpi, withStart]

/-- Witness for C5 at a concrete auto-detected `main.c` with every zig
tier failing. -/
def envAutoNoZig : Env :=
  ⟨["t".data], fun s => s == "w/main.c".data, "w".data,
   none, none, none, none, fun _ => 0⟩

theorem toolchain_not_found_exit_codes_witness :
    (main envAutoNoZig).exitCode = 3 ∧
    (main envAutoNoZig).events = [Event.lookupZig] :=
  (toolchain_not_found_exit_codes envAutoNoZig "w/main.c".data none
    (Or.inr ⟨by decide, rfl, Or.inl ⟨by decide, by decide, by decide⟩⟩)).1
    (by decide) (by decide)

/-- C9: for every input, absent or any string, the normalized output name
ends with `.exe` up to letter case. -/
theorem normalize_out_name_ends_exe (name : Option PyStr) :
    strEndsWith (pyLower (normalize_out_name name)) ".exe".data = true := by
  match name with
  | none => decide
  | some s =>
    by_cases h1 : s.isEmpty
    · simp [normalize_out_name, h1]
      decide
    · by_cases h2 : strEndsWith (pyLower s) ".exe".data = true
      · simp [normalize_out_name, h1, h2]
      · have h2f : strEndsWith (pyLower s) ".exe".data = false := by
          cases hx : strEndsWith (pyLower s) ".exe".data
          · rfl
          · exact absurd hx h2
        simp [normalize_out_name, h1, h2f]
        rw [strEndsWith, pyLower, List.map_append]
        have hfix : (".exe".data).map Char.toLower = ".exe".data := by decide
        rw [hfix, List.isSuffixOf_iff_suffix]
        exact ⟨_, rfl⟩

/-- C3: with only `main.c` in the working directory, no arguments, a
resolvable zig and a compiler subprocess that exits 0, `main` exits with
code 0, its trace is exactly one zig lookup followed by exactly one
subprocess running the fixed command line with output name `a.exe`, and a
success message naming `a.exe` is printed. -/
theorem main_c_end_to_end (env : Env) (z : PyStr)
    (hargv : env.argv.length ≤ 1)
    (hc : env.pathExists (joinPath env.cwd "main.c".data) = true)
    (hpy : env.pathExists (joinPath env.cwd "main.py".data) = false)
    (hz : find_zig env = some z)
    (hrun : env.run (build_with_zig_cmd z (joinPath env.cwd "main.c".data)
      "a.exe".data) = 0) :
    (main env).exitCode = 0 ∧
    (main env).events = [Event.lookupZig,
      Event.runProc (build_with_zig_cmd z (joinPath env.cwd "main.c".data)
        "a.exe".data)] ∧
    ("Build succeeded. Created: ".data ++ "a.exe".data) ∈ (main env).messages := by
  have hsuf : pySuffix (joinPath env.cwd "main.c".data) = ".c".data := by
    rw [pySuffix_joinPath env.cwd "main.c".data (by decide)]
    decide
  rcases henv : env.argv with _ | ⟨a, _ | ⟨b, t⟩⟩
  · unfold main
    rw [henv]
    simp [hc, hpy, normalize_out_name, dispatchBuild, hsuf, hz, hrun, withStart]
  · unfold main
    rw [henv]
    simp [hc, hpy, normalize_out_name, dispatchBuild, hsuf, hz, hrun, withStart]
  · rw [henv] at hargv
    simp at hargv

/-- Witness for C3 at a concrete environment with zig on the search path. -/
def envOnlyC : Env :=
  ⟨["t".data], fun s => s == "w/main.c".data, "w".data,
   none, none, some "zig".data, none, fun _ => 0⟩

theorem main_c_end_to_end_witness :
    (main envOnlyC).exitCode = 0 ∧
    (main envOnlyC).events = [Event.lookupZig,
      Event.runProc (build_with_zig_cmd "zig".data
        (joinPath envOnlyC.cwd "main.c".data) "a.exe".data)] ∧
    ("Build succeeded. Created: ".data ++ "a.exe".data) ∈ (main envOnlyC).messages :=
  main_c_end_to_end envOnlyC "zig".data (by decide) (by decide) (by decide)
    (by decide) rfl

/-- C4: for every dispatched build, C or Python variant, on a source
resolved by either route, the subprocess's return code `c` becomes the
process exit code: nonzero is passed through by the `BuildFailed` path and
zero ends the run with exit code 0. -/
theorem dispatch_exit_code_passthrough (env : Env) (src : PyStr)
    (outArg : Option PyStr) (c : Int)
    (hres : ResolvesTo env src outArg) :
    (∀ z, pySuffix src = ".c".data → find_zig env = some z →
      env.run (build_with_zig_cmd z src (normalize_out_name outArg)) = c →
      (main env).exitCode = c) ∧
    (∀ py, pySuffix src = ".py".data → find_pyinstaller env = some py →
      env.run (build_python_cmd py src (normalize_out_name outArg)) = c →
      (main env).exitCode = c) := by
  rw [main_eq_dispatch env src outArg hres]
  constructor
  · intro z hsuf hz hrun
    simp only [dispatchBuild, hsuf, if_pos rfl, hz, withStart]
    rw [hrun]
    rcases eq_or_ne c 0 with h | h <;> simp [h]
  · intro py hsuf hpi hrun
    have hne : pySuffix src ≠ ".c".data := by rw [hsuf]; decide
    simp only [dispatchBuild, hne, if_neg hne, hsuf, if_pos rfl, hpi,
      withStart]
    rw [hrun]
    rcases eq_or_ne c 0 with h | h <;> simp [h]

/-- Witness for C4: a concrete compiler on an auto-detected `main.c`
failing with code 7 passes 7 through as the process exit code. -/
def envAutoRc7 : Env :=
  ⟨["t".data], fun s => s == "w/main.c".data, "w".data,
   none, none, some "zig".data, none, fun _ => 7⟩

theorem dispatch_exit_code_passthrough_witness :
    (main envAutoRc7).exitCode = 7 :=
  (dispatch_exit_code_passthrough envAutoRc7 "w/main.c".data none 7
    (Or.inr ⟨by decide, rfl, Or.inl ⟨by decide, by decide, by decide⟩⟩)).1
    "zig".data (by decide) (by decide) rfl

/-- C8: the C-toolchain locator equals the spec's four-tier cascade: the
environment override when it names an existing path, else the bundled
subpath, else the relative candidates in priority order, else the system
search path, and `none` when every tier fails. -/
theorem find_zig_four_tiers (env : Env) :
    find_zig env = locate_c_toolchain_spec env := by
  cases he : env.envZig <;> cases hm : env.meipass <;>
    simp only [find_zig, locate_c_toolchain_spec, tierEnvOverride, tierBundled,
      tierRelative, tierSystemPath, find_zig_tier2, find_zig_tier3,
      find_zig_tier4, he, hm] <;>
    split_ifs <;> simp_all

end AutoBuildTool
